import Mathlib

/-
Shallow embedding of the teamscale-client-python repository.

The repository contains two revisions of the same HTTP façade:
  * `src/teamscale_client/client.py` — the package client (namespace `TS`),
  * `src/teamscale_client.py`        — the legacy single-file client
    (namespace `TS.Legacy`).

Network transport is modelled by passing the `Response` the server would
return as an explicit argument; each façade method returns the `Request` it
builds (method, url, query parameters, body, multipart files) together with
the outcome (`Except PyError …`), mirroring the Python control flow where a
non-200 status raises and a 200 status returns the response.
-/

set_option autoImplicit false
set_option linter.unusedVariables false

namespace TS

/-- Values of the Python/JSON data model, as returned by `response.json()`
and consumed by the deserialization code. Objects are association lists in
key order; generated from JSON text the keys are distinct. -/
inductive Json where
  | null
  | bool (b : Bool)
  | num (n : Int)
  | str (s : String)
  | arr (elems : List Json)
  | obj (fields : List (String × Json))
deriving Repr

/-- Python exceptions that the client code can raise.
`serviceError` is the `ServiceError` from `teamscale_client.data`,
constructed in the source with a single formatted message string;
`exception` is a plain built-in `Exception` (used by the legacy client);
`keyError` models `dict[key]` on a missing key; `typeError` models
type-confusion failures of the Python runtime. -/
inductive PyError where
  | serviceError (msg : String)
  | exception (msg : String)
  | keyError (key : String)
  | typeError (msg : String)
deriving Repr, DecidableEq

/-- An HTTP response as the `requests` library presents it: the integer
status code, the raw body text, and the value `response.json()` parses the
body to. -/
structure Response where
  status_code : Nat
  text : String
  body : Json
deriving Repr

/-- A value placed in the query-parameter dict of a request. The source
uses strings, ints (the millisecond timestamp) and one Python boolean
(`detail` in `get_baselines`). -/
inductive ParamValue where
  | str (s : String)
  | int (n : Int)
  | bool (b : Bool)
deriving Repr, DecidableEq

/-- How the `requests` library renders a query-parameter value into the URL
query string: non-string values are converted with Python `str()`, so the
boolean `True` becomes the string `"True"` (capital T), not `"true"`. -/
def ParamValue.serialize : ParamValue → String
  | .str s => s
  | .int n => toString n
  | .bool true => "True"
  | .bool false => "False"

inductive HttpMethod where
  | GET
  | PUT
  | POST
deriving Repr, DecidableEq

/-- The observable content of one HTTP request issued by the client:
the method, the URL, the query parameters in dict order, the structured
body (`json=` keyword), the pre-serialized body (`data=` keyword, kept in
structured form), and the multipart file fields as
(field name, opened file path) pairs. Authentication headers and TLS
verification are taken from the client configuration on every request and
are not examined by any claim. -/
structure Request where
  method : HttpMethod
  url : String
  params : List (String × ParamValue)
  json : Option Json := none
  data : Option Json := none
  files : List (String × String) := []
deriving Repr

/-- Pieces of a Python format string: literal text and `%s` / `{...}`
substitution slots, filled left to right. -/
inductive FmtPiece where
  | lit (s : String)
  | slot
deriving Repr, DecidableEq

/-- Evaluates a Python format string (`"..." % args` or
`"...".format(args)`): literals are copied, slots consume the arguments
left to right. The source never has more slots than arguments. -/
def pyFormat : List FmtPiece → List String → String
  | [], _ => ""
  | .lit s :: ps, args => s ++ pyFormat ps args
  | .slot :: ps, a :: args => a ++ pyFormat ps args
  | .slot :: ps, [] => pyFormat ps []

/-- Configuration state of `teamscale_client.client.TeamscaleClient`:
base url, credentials, project, TLS-verification flag. -/
structure TeamscaleClient where
  url : String
  username : String
  password : String
  project : String
  sslverify : Bool := true
deriving Repr, DecidableEq

/-- Embeds `TeamscaleClient.get_global_service_url`:
`"%s/%s/" % (self.url, service_name)`. -/
def TeamscaleClient.get_global_service_url (c : TeamscaleClient) (service_name : String) : String :=
  pyFormat [.slot, .lit "/", .slot, .lit "/"] [c.url, service_name]

/-- Embeds `TeamscaleClient.get_project_service_url`:
`"{client.url}/p/{client.project}/{service}/".format(...)`. -/
def TeamscaleClient.get_project_service_url (c : TeamscaleClient) (service_name : String) : String :=
  pyFormat [.slot, .lit "/p/", .slot, .lit "/", .slot, .lit "/"] [c.url, c.project, service_name]

/-- Message of the `ServiceError` raised by `TeamscaleClient.get` (and,
verbatim including the word GET, by the two POST-based upload methods):
`"ERROR: GET {url}: {r.status_code}:{r.text}"`. -/
def errorMsgGET (url : String) (r : Response) : String :=
  pyFormat [.lit "ERROR: GET ", .slot, .lit ": ", .slot, .lit ":", .slot]
    [url, toString r.status_code, r.text]

/-- Message of the `ServiceError` raised by `TeamscaleClient.put`:
`"ERROR: PUT {url}: {r.status_code}:{r.text}"`. -/
def errorMsgPUT (url : String) (r : Response) : String :=
  pyFormat [.lit "ERROR: PUT ", .slot, .lit ": ", .slot, .lit ":", .slot]
    [url, toString r.status_code, r.text]

/-- Embeds `TeamscaleClient.get`: issues a GET, raises
`ServiceError` when the status code is not 200, returns the response
otherwise. The response the server sends is the last argument. -/
def TeamscaleClient.get (c : TeamscaleClient) (url : String)
    (parameters : List (String × ParamValue)) (response : Response) :
    Request × Except PyError Response :=
  (⟨.GET, url, parameters, none, none, []⟩,
   if response.status_code ≠ 200 then
     .error (.serviceError (errorMsgGET url response))
   else
     .ok response)

/-- Embeds `TeamscaleClient.put`: issues a PUT with an optional structured
`json` body and an optional pre-serialized `data` body, raises
`ServiceError` when the status code is not 200. -/
def TeamscaleClient.put (c : TeamscaleClient) (url : String) (json : Option Json)
    (parameters : List (String × ParamValue)) (data : Option Json) (response : Response) :
    Request × Except PyError Response :=
  (⟨.PUT, url, parameters, json, data, []⟩,
   if response.status_code ≠ 200 then
     .error (.serviceError (errorMsgPUT url response))
   else
     .ok response)

/-- Wall-clock fields of a Python `datetime.datetime` value
(proleptic Gregorian calendar; `microsecond` is the sub-second field,
`0 ≤ microsecond < 1000000`). -/
structure Datetime where
  year : Int
  month : Int
  day : Int
  hour : Int
  minute : Int
  second : Int
  microsecond : Nat := 0
deriving Repr, DecidableEq

/-- Fields of a Python `time.struct_time`; note there is no sub-second
field, so building one from a `datetime` discards the microseconds. -/
structure TimeTuple where
  year : Int
  month : Int
  day : Int
  hour : Int
  minute : Int
  second : Int
deriving Repr, DecidableEq

/-- Embeds `datetime.timetuple()`: copies the whole-second wall-clock
fields and drops the `microsecond` field. -/
def Datetime.timetuple (d : Datetime) : TimeTuple :=
  ⟨d.year, d.month, d.day, d.hour, d.minute, d.second⟩

/-- Days from 1970-01-01 to the civil date y-m-d in the proleptic
Gregorian calendar (the standard era-based conversion; all divisions hit
nonnegative operands for the dates the development evaluates). -/
def daysFromCivil (y m d : Int) : Int :=
  let y2 : Int := if m ≤ 2 then y - 1 else y
  let era : Int := (if 0 ≤ y2 then y2 else y2 - 399) / 400
  let yoe : Int := y2 - era * 400
  let mp : Int := if 2 < m then m - 3 else m + 9
  let doy : Int := (153 * mp + 2) / 5 + d - 1
  let doe : Int := yoe * 365 + yoe / 4 - yoe / 100 + doy
  era * 146097 + doe - 719468

/-- Models the Python runtime's `time.mktime`: the struct_time is
interpreted as local wall-clock time and converted to seconds since the
Unix epoch. `tzOffset` is the UTC offset, in seconds, that the process's
local timezone assigns to this wall-clock time (0 when the local timezone
is UTC); `mktime` subtracts it. The float return value is integral for
whole-second inputs, so it is modelled as `Int`. -/
def mktime (tzOffset : Int) (t : TimeTuple) : Int :=
  daysFromCivil t.year t.month t.day * 86400
    + t.hour * 3600 + t.minute * 60 + t.second - tzOffset

/-- Embeds `TeamscaleClient._get_timestamp_ms`:
`int(time.mktime(timestamp.timetuple()) * 1000)`. The local timezone
offset consumed by `mktime` is threaded as an explicit argument. -/
def TeamscaleClient.get_timestamp_ms (c : TeamscaleClient) (tzOffset : Int)
    (timestamp : Datetime) : Int :=
  mktime tzOffset timestamp.timetuple * 1000

/-- Embeds `TeamscaleClient._upload_external_data`: builds the
project-scoped service url and the query-parameter dict (in source order),
then delegates to `put` with the `to_json`-serialized payload as the
`data` body. -/
def TeamscaleClient.upload_external_data (c : TeamscaleClient) (tzOffset : Int)
    (service_name : String) (json_data : Json) (timestamp : Datetime)
    (message : String) (partition : String) (response : Response) :
    Request × Except PyError Response :=
  let service_url := c.get_project_service_url service_name
  let parameters : List (String × ParamValue) :=
    [("t", .int (c.get_timestamp_ms tzOffset timestamp)),
     ("message", .str message),
     ("partition", .str partition),
     ("skip-session", .str "true"),
     ("adjusttimestamp", .str "true")]
  c.put service_url none parameters (some json_data) response

/-- Embeds `TeamscaleClient.upload_findings`: delegates to
`_upload_external_data` with service name `add-external-findings`. -/
def TeamscaleClient.upload_findings (c : TeamscaleClient) (tzOffset : Int)
    (findings : Json) (timestamp : Datetime) (message : String)
    (partition : String) (response : Response) :
    Request × Except PyError Response :=
  c.upload_external_data tzOffset "add-external-findings" findings timestamp message partition response

/-- Embeds `TeamscaleClient.upload_metrics`: delegates to
`_upload_external_data` with service name `add-external-metrics`. -/
def TeamscaleClient.upload_metrics (c : TeamscaleClient) (tzOffset : Int)
    (metrics : Json) (timestamp : Datetime) (message : String)
    (partition : String) (response : Response) :
    Request × Except PyError Response :=
  c.upload_external_data tzOffset "add-external-metrics" metrics timestamp message partition response

/-- Outcome of one of the two multipart POST methods: the request built,
the result (response or raised error), and the file-handle effects of the
call — the paths passed to `open(…, 'rb')` in order, and the paths whose
handles the method explicitly closes (the source contains no close call,
on any path: the handles are left to the garbage collector). -/
structure MultipartCall where
  request : Request
  result : Except PyError Response
  opened : List String
  closed : List String
deriving Repr

/-- Embeds `TeamscaleClient.upload_coverage_data`: builds the
`external-report` url and parameters, opens every coverage file in binary
mode attaching each under the repeated multipart field `report`, POSTs,
and raises `ServiceError` (whose message is the GET-labelled format
string, verbatim from the source) on a non-200 status. No file handle is
ever closed explicitly. -/
def TeamscaleClient.upload_coverage_data (c : TeamscaleClient) (tzOffset : Int)
    (coverage_files : List String) (coverage_format : String)
    (timestamp : Datetime) (message : String) (partition : String)
    (response : Response) : MultipartCall :=
  let service_url := c.get_project_service_url "external-report"
  let parameters : List (String × ParamValue) :=
    [("t", .int (c.get_timestamp_ms tzOffset timestamp)),
     ("message", .str message),
     ("partition", .str partition),
     ("format", .str coverage_format),
     ("adjusttimestamp", .str "true")]
  let multiple_files := coverage_files.map (fun filename => ("report", filename))
  { request := ⟨.POST, service_url, parameters, none, none, multiple_files⟩,
    result :=
      if response.status_code ≠ 200 then
        .error (.serviceError (errorMsgGET service_url response))
      else
        .ok response,
    opened := coverage_files,
    closed := [] }

/-- Embeds `TeamscaleClient.upload_architectures`: the `architectures`
dict is modelled as an association list in its iteration order; each entry
maps a destination path (the multipart field name) to the real file
opened in binary mode. The non-200 error message is again the GET-labelled
format string, verbatim from the source. No file handle is ever closed
explicitly. -/
def TeamscaleClient.upload_architectures (c : TeamscaleClient) (tzOffset : Int)
    (architectures : List (String × String)) (timestamp : Datetime)
    (message : String) (response : Response) : MultipartCall :=
  let service_url := c.get_project_service_url "architecture-upload"
  let parameters : List (String × ParamValue) :=
    [("t", .int (c.get_timestamp_ms tzOffset timestamp)),
     ("message", .str message)]
  let multiple_files := architectures.map (fun pf => (pf.1, pf.2))
  { request := ⟨.POST, service_url, parameters, none, none, multiple_files⟩,
    result :=
      if response.status_code ≠ 200 then
        .error (.serviceError (errorMsgGET service_url response))
      else
        .ok response,
    opened := architectures.map (fun pf => pf.2),
    closed := [] }

/-- Boolean test for the object constructor of `Json` (Python: the value
is a dict). -/
def Json.isObj : Json → Bool
  | .obj _ => true
  | _ => false

/-- Embeds the Python subscript `x[key]` on a JSON value: on a dict it
returns the value stored under the key or raises `KeyError`; on any other
value it raises `TypeError`. -/
def Json.getKey (j : Json) (k : String) : Except PyError Json :=
  match j with
  | .obj fields =>
    match fields.lookup k with
    | some v => .ok v
    | none => .error (.keyError k)
  | _ => .error (.typeError "value is not subscriptable by string")

/-- Embeds Python iteration `for x in v`: a JSON array yields its
elements, a dict yields its keys, a string yields its one-character
substrings; other values raise `TypeError`. -/
def Json.iterate : Json → Except PyError (List Json)
  | .arr xs => .ok xs
  | .obj fields => .ok (fields.map (fun f => Json.str f.1))
  | .str s => .ok (s.toList.map (fun ch => Json.str (String.mk [ch])))
  | _ => .error (.typeError "value is not iterable")

/-- Modelled from the spec: the `Baseline` class of
`teamscale_client.data` (that module is not under `src/`) is, per the
spec's data model, a record of name, description and timestamp; the
constructor stores the values it is given, so the fields carry the raw
JSON values the deserialization code passes in. -/
structure Baseline where
  name : Json
  description : Json
  timestamp : Json
deriving Repr

/-- Embeds the element conversion inside `get_baselines`:
`Baseline(x['name'], x['description'], timestamp=x['timestamp'])`, with
Python's left-to-right evaluation of the three subscripts. -/
def baselineOfJson (x : Json) : Except PyError Baseline := do
  let n ← x.getKey "name"
  let d ← x.getKey "description"
  let t ← x.getKey "timestamp"
  pure ⟨n, d, t⟩

/-- Embeds `TeamscaleClient.get_baselines`: issues a GET on the
project-scoped `baselines` url with the query parameter `detail` set to
the Python boolean `True`, raises `ServiceError` on a non-200 status, and
otherwise converts each element of the JSON body to a `Baseline`
(subscript failures propagate as raised `KeyError`/`TypeError`). -/
def TeamscaleClient.get_baselines (c : TeamscaleClient) (response : Response) :
    Request × Except PyError (List Baseline) :=
  let service_url := c.get_project_service_url "baselines"
  let parameters : List (String × ParamValue) := [("detail", .bool true)]
  (⟨.GET, service_url, parameters, none, none, []⟩,
   if response.status_code ≠ 200 then
     .error (.serviceError (errorMsgGET service_url response))
   else do
     let xs ← response.body.iterate
     xs.mapM baselineOfJson)

/-- Modelled from the spec: `teamscale_client.utils.to_json` (that module
is not under `src/`) serializes an object from its fields; for a
`Baseline` this is the JSON object with its three fields. Kept in
structured form as the request's `data` body. -/
def baselineJson (b : Baseline) : Json :=
  .obj [("name", b.name), ("description", b.description), ("timestamp", b.timestamp)]

/-- Embeds `TeamscaleClient.add_baseline`: appends `baseline.name` to the
project-scoped `baselines` url with Python `+=` string concatenation
(raising `TypeError` if the name is not a string) and PUTs the serialized
baseline with an empty parameter dict. -/
def TeamscaleClient.add_baseline (c : TeamscaleClient) (baseline : Baseline)
    (response : Response) : Except PyError (Request × Except PyError Response) :=
  let service_url := c.get_project_service_url "baselines"
  match baseline.name with
  | .str n => .ok (c.put (service_url ++ n) none [] (some (baselineJson baseline)) response)
  | _ => .error (.typeError "cannot concatenate str and non-str")

namespace Legacy

/-- Configuration state of the legacy single-file
`teamscale_client.TeamscaleClient` (no TLS-verification flag; the
credentials are carried as a base64 Authorization header). -/
structure TeamscaleClient where
  url : String
  username : String
  password : String
  project : String
deriving Repr, DecidableEq

/-- Embeds the legacy `TeamscaleClient.get_project_service_url`:
`"%s/p/%s/%s/" % (self.url, self.project, service_name)`. -/
def TeamscaleClient.get_project_service_url (c : TeamscaleClient) (service_name : String) : String :=
  pyFormat [.slot, .lit "/p/", .slot, .lit "/", .slot, .lit "/"] [c.url, c.project, service_name]

/-- Message of the error raised by the legacy `TeamscaleClient.put`:
`"ERROR: PUT "+url+": {}:{}".format(response.status_code, response.text)`. -/
def errorMsgPUT (url : String) (r : Response) : String :=
  "ERROR: PUT " ++ url ++ pyFormat [.lit ": ", .slot, .lit ":", .slot]
    [toString r.status_code, r.text]

/-- Embeds the legacy `TeamscaleClient.put`: issues a PUT with a JSON body
and raises a plain built-in `Exception` — not a `ServiceError` — when the
status code is not 200. -/
def TeamscaleClient.put (c : TeamscaleClient) (url : String) (json : Json)
    (parameters : List (String × ParamValue)) (response : Response) :
    Request × Except PyError Response :=
  (⟨.PUT, url, parameters, some json, none, []⟩,
   if response.status_code ≠ 200 then
     .error (.exception (errorMsgPUT url response))
   else
     .ok response)

/-- Embeds the legacy `TeamscaleClient._upload_external_data`: the
timestamp is passed through as a raw integer (no datetime conversion) and
the parameter dict has no `adjusttimestamp` entry. -/
def TeamscaleClient.upload_external_data (c : TeamscaleClient)
    (service_name : String) (json_data : Json) (timestamp : Int)
    (message : String) (partition : String) (response : Response) :
    Request × Except PyError Response :=
  let service_url := c.get_project_service_url service_name
  let parameters : List (String × ParamValue) :=
    [("t", .int timestamp),
     ("message", .str message),
     ("partition", .str partition),
     ("skip-session", .str "true")]
  c.put service_url json_data parameters response

/-- Embeds the legacy `TeamscaleClient.upload_findings`. -/
def TeamscaleClient.upload_findings (c : TeamscaleClient) (findings : Json)
    (timestamp : Int) (message : String) (partition : String)
    (response : Response) : Request × Except PyError Response :=
  c.upload_external_data "add-external-findings" findings timestamp message partition response

end Legacy

/-- Boolean discriminator: the call outcome is a raised `ServiceError`. -/
def raisesServiceError {α : Type} : Except PyError α → Bool
  | .error (.serviceError _) => true
  | _ => false

/-- Predicate on a JSON value: subscripting it by one of the three
baseline keys raises `KeyError` (the element lacks that key). -/
def missingBaselineKey (x : Json) : Prop :=
  ∃ k, k ∈ (["name", "description", "timestamp"] : List String)
    ∧ x.getKey k = .error (.keyError k)

/-- Sample client configuration used by the concrete instances below:
base url `http://ts:8080`, project `demo`. -/
def demoClient : TeamscaleClient :=
  ⟨"http://ts:8080", "user", "secret", "demo", true⟩

/-- Wall-clock instant 2021-01-01T00:00:00 (UTC when the timezone offset
threaded to `mktime` is 0). -/
def dt2021 : Datetime := ⟨2021, 1, 1, 0, 0, 0, 0⟩

/-- Sample successful response with an empty JSON body. -/
def ok200 : Response := ⟨200, "ok", Json.null⟩

/-- C2: for every base URL, project and service name held in the client
configuration, `get_project_service_url` returns exactly
`{base_url}/p/{project}/{service_name}/` and `get_global_service_url`
returns exactly `{base_url}/{service_name}/`, byte-for-byte including the
trailing slash — in the package client, and likewise for the legacy
client's project url builder. -/
theorem claim_C2_service_urls (c : TeamscaleClient) (lc : Legacy.TeamscaleClient)
    (service_name : String) :
    c.get_project_service_url service_name
        = c.url ++ "/p/" ++ c.project ++ "/" ++ service_name ++ "/"
    ∧ c.get_global_service_url service_name = c.url ++ "/" ++ service_name ++ "/"
    ∧ lc.get_project_service_url service_name
        = lc.url ++ "/p/" ++ lc.project ++ "/" ++ service_name ++ "/" := by
  refine ⟨?_, ?_, ?_⟩ <;>
    simp [TeamscaleClient.get_project_service_url, TeamscaleClient.get_global_service_url,
      Legacy.TeamscaleClient.get_project_service_url, pyFormat,
      String.append_empty, String.append_assoc]

/-- C4: the timestamp-to-milliseconds conversion is a deterministic
function of the wall-clock instant (given the timezone offset the runtime
applies): any two datetimes with the same whole-second fields — in
particular the same instant converted twice — yield the same millisecond
integer, the sub-second `microsecond` field is discarded (truncated, never
rounded up), and the result is the whole-second epoch value multiplied by
1000. -/
theorem claim_C4_timestamp_truncation (c : TeamscaleClient) (tzOffset : Int)
    (da db : Datetime) (h : da.timetuple = db.timetuple) :
    c.get_timestamp_ms tzOffset da = c.get_timestamp_ms tzOffset db
    ∧ c.get_timestamp_ms tzOffset da
        = c.get_timestamp_ms tzOffset
            ⟨da.year, da.month, da.day, da.hour, da.minute, da.second, 0⟩
    ∧ c.get_timestamp_ms tzOffset da = mktime tzOffset da.timetuple * 1000 := by
  refine ⟨?_, rfl, rfl⟩
  unfold TeamscaleClient.get_timestamp_ms
  rw [h]

/-- Witness for C4 at a concrete input: 2021-01-01T00:00:00.999999 and
2021-01-01T00:00:00.000000 share their whole-second fields and convert to
the same millisecond value. -/
theorem claim_C4_timestamp_truncation_witness :
    Datetime.timetuple ⟨2021, 1, 1, 0, 0, 0, 999999⟩
        = Datetime.timetuple ⟨2021, 1, 1, 0, 0, 0, 0⟩
    ∧ demoClient.get_timestamp_ms 0 ⟨2021, 1, 1, 0, 0, 0, 999999⟩
        = demoClient.get_timestamp_ms 0 ⟨2021, 1, 1, 0, 0, 0, 0⟩ :=
  ⟨rfl, (claim_C4_timestamp_truncation demoClient 0 ⟨2021, 1, 1, 0, 0, 0, 999999⟩
    ⟨2021, 1, 1, 0, 0, 0, 0⟩ rfl).1⟩

/-- C9: given a 200 response whose body is the JSON array
`[{name: b1, description: d1, timestamp: 1000}]`, `get_baselines` returns
a list containing exactly one `Baseline` whose name, description and
timestamp equal those field values. -/
theorem claim_C9_get_baselines_ok (c : TeamscaleClient) :
    (c.get_baselines ⟨200, "body",
        .arr [.obj [("name", .str "b1"), ("description", .str "d1"),
          ("timestamp", .num 1000)]]⟩).2
      = .ok [⟨.str "b1", .str "d1", .num 1000⟩] := rfl

/-- C8: for every baseline whose name is a string, `add_baseline` issues a
PUT whose URL is the project-scoped `baselines` URL with the baseline's
name appended verbatim as the suffix; in particular, with baseline name
`rel-2.0`, project `demo` and base URL `http://ts:8080` the PUT goes to
`http://ts:8080/p/demo/baselines/rel-2.0`. -/
theorem claim_C8_add_baseline_url (c : TeamscaleClient) (n : String) (dsc tsp : Json)
    (response : Response) :
    (c.add_baseline ⟨Json.str n, dsc, tsp⟩ response).map
        (fun call => (call.1.method, call.1.url))
      = .ok (HttpMethod.PUT, c.get_project_service_url "baselines" ++ n)
    ∧ (demoClient.add_baseline ⟨Json.str "rel-2.0", dsc, tsp⟩ response).map
        (fun call => call.1.url)
      = .ok "http://ts:8080/p/demo/baselines/rel-2.0" :=
  ⟨rfl, rfl⟩

/-- C5 (failing input): on a non-200 response the two POST-based upload
methods do issue a POST, but the `ServiceError` they raise labels the
operation `GET` — the message copied verbatim from `get` — so the error
does not identify the HTTP method actually used. -/
theorem claim_C5_post_error_mislabeled :
    (demoClient.upload_coverage_data 0 ["cov.xml"] "JACOCO" dt2021 "m" "P1"
        ⟨500, "oops", Json.null⟩).request.method = HttpMethod.POST
    ∧ (demoClient.upload_coverage_data 0 ["cov.xml"] "JACOCO" dt2021 "m" "P1"
        ⟨500, "oops", Json.null⟩).result
      = .error (.serviceError "ERROR: GET http://ts:8080/p/demo/external-report/: 500:oops")
    ∧ (demoClient.upload_architectures 0 [("arch/sys.architecture", "sys.arch")] dt2021 "m"
        ⟨500, "oops", Json.null⟩).request.method = HttpMethod.POST
    ∧ (demoClient.upload_architectures 0 [("arch/sys.architecture", "sys.arch")] dt2021 "m"
        ⟨500, "oops", Json.null⟩).result
      = .error (.serviceError "ERROR: GET http://ts:8080/p/demo/architecture-upload/: 500:oops") :=
  ⟨rfl, rfl, rfl, rfl⟩

/-- Evaluates the timestamp conversion at 2021-01-01T00:00:00: the epoch
second 1609459200 minus the local timezone offset, times 1000. -/
theorem get_timestamp_ms_2021 (c : TeamscaleClient) (tzOffset : Int) :
    c.get_timestamp_ms tzOffset dt2021 = (1609459200 - tzOffset) * 1000 := by
  have hd : daysFromCivil 2021 1 1 = 18628 := by norm_num [daysFromCivil]
  unfold TeamscaleClient.get_timestamp_ms mktime dt2021 Datetime.timetuple
  rw [hd]
  ring

/-- C3 (counterexample): calling `upload_findings` with partition `P1`,
message `m` and wall-clock 2021-01-01T00:00:00 in a process whose local
timezone offset is +3600 seconds (e.g. CET) sends `t=1609455600000`, not
the claimed `t=1609459200000` — `time.mktime` interprets the datetime's
fields in local time, so the claimed value is only obtained when the local
timezone is UTC. -/
theorem claim_C3_upload_findings_params_counterexample :
    ((demoClient.upload_findings 3600 (Json.arr []) dt2021 "m" "P1" ok200).1.params.lookup "t")
      = some (.int 1609455600000)
    ∧ (1609455600000 : Int) ≠ 1609459200000 :=
  ⟨rfl, by decide⟩

/-- C3 (amended): calling `upload_findings` with partition `P1`, message
`m` and wall-clock 2021-01-01T00:00:00 sends a PUT whose query parameters
are exactly `t=(1609459200 − off)·1000` — where `off` is the local
timezone's UTC offset in seconds applied by `time.mktime`, so
`t=1609459200000` exactly when the local timezone is UTC — together with
`partition=P1`, `message=m`, `skip-session=true` and
`adjusttimestamp=true`. -/
theorem claim_C3_upload_findings_params (c : TeamscaleClient) (tzOffset : Int)
    (findings : Json) (response : Response) :
    (c.upload_findings tzOffset findings dt2021 "m" "P1" response).1.method = HttpMethod.PUT
    ∧ (c.upload_findings tzOffset findings dt2021 "m" "P1" response).1.params
      = [("t", .int ((1609459200 - tzOffset) * 1000)),
         ("message", .str "m"),
         ("partition", .str "P1"),
         ("skip-session", .str "true"),
         ("adjusttimestamp", .str "true")] := by
  refine ⟨rfl, ?_⟩
  simp [TeamscaleClient.upload_findings, TeamscaleClient.upload_external_data,
    TeamscaleClient.put, get_timestamp_ms_2021]

/-- C6 (counterexample): the `detail` flag of `get_baselines` is the
Python boolean `True`, which the transport serializes into the query
string as `True` with a capital T — not the literal lowercase string
`true`. -/
theorem claim_C6_detail_flag_counterexample :
    (demoClient.get_baselines ok200).1.params = [("detail", ParamValue.bool true)]
    ∧ ParamValue.serialize (ParamValue.bool true) = "True"
    ∧ "True" ≠ "true" :=
  ⟨rfl, rfl, by decide⟩

/-- C6 (amended): in every request issued by a façade method the query
parameters are string-keyed; the `skip-session` and `adjusttimestamp`
flags of the upload methods are passed as the literal lowercase string
`true`, but the `detail` flag of `get_baselines` is passed as the Python
boolean `True`, which serializes as the string `True`, not lowercase
`true`. -/
theorem claim_C6_flag_serialization (c : TeamscaleClient) (tzOffset : Int)
    (sname : String) (jd : Json) (dtm : Datetime) (msg part fmt : String)
    (coverage_files : List String) (archs : List (String × String))
    (response : Response) :
    ((c.upload_external_data tzOffset sname jd dtm msg part response).1.params.map Prod.fst
        = ["t", "message", "partition", "skip-session", "adjusttimestamp"])
    ∧ ((c.upload_external_data tzOffset sname jd dtm msg part response).1.params.lookup
        "skip-session" = some (.str "true"))
    ∧ ((c.upload_external_data tzOffset sname jd dtm msg part response).1.params.lookup
        "adjusttimestamp" = some (.str "true"))
    ∧ ((c.upload_coverage_data tzOffset coverage_files fmt dtm msg part response).request.params.map
        Prod.fst = ["t", "message", "partition", "format", "adjusttimestamp"])
    ∧ ((c.upload_coverage_data tzOffset coverage_files fmt dtm msg part response).request.params.lookup
        "adjusttimestamp" = some (.str "true"))
    ∧ ((c.upload_architectures tzOffset archs dtm msg response).request.params.map Prod.fst
        = ["t", "message"])
    ∧ ((c.get_baselines response).1.params = [("detail", ParamValue.bool true)])
    ∧ ParamValue.serialize (ParamValue.bool true) = "True" :=
  ⟨rfl, rfl, rfl, rfl, rfl, rfl, rfl, rfl⟩

/-- C7 (counterexample): even on the successful exit path — a 200
response — `upload_coverage_data` opens the referenced file but never
closes its handle: the list of explicitly closed handles is empty. -/
theorem claim_C7_handles_counterexample :
    (demoClient.upload_coverage_data 0 ["cov.xml"] "JACOCO" dt2021 "m" "P1" ok200).result
      = .ok ok200
    ∧ (demoClient.upload_coverage_data 0 ["cov.xml"] "JACOCO" dt2021 "m" "P1" ok200).opened
      = ["cov.xml"]
    ∧ (demoClient.upload_coverage_data 0 ["cov.xml"] "JACOCO" dt2021 "m" "P1" ok200).closed
      = ([] : List String) :=
  ⟨rfl, rfl, rfl⟩

/-- C7 (amended): each multipart upload opens every referenced file path
exactly once (once per occurrence, in list order) and attaches it under
its designated field name — the repeated field `report` for coverage, the
destination path for architecture — but the file handles are never
explicitly closed, on any exit path: release is left to the runtime's
garbage collector. -/
theorem claim_C7_multipart_files (c : TeamscaleClient) (tzOffset : Int)
    (coverage_files : List String) (fmt : String) (dtm : Datetime)
    (msg part : String) (archs : List (String × String)) (response : Response) :
    ((c.upload_coverage_data tzOffset coverage_files fmt dtm msg part response).opened
        = coverage_files)
    ∧ ((c.upload_coverage_data tzOffset coverage_files fmt dtm msg part response).request.files
        = coverage_files.map (fun filename => ("report", filename)))
    ∧ ((c.upload_coverage_data tzOffset coverage_files fmt dtm msg part response).closed = [])
    ∧ (coverage_files.Nodup → ∀ p ∈ coverage_files,
        (c.upload_coverage_data tzOffset coverage_files fmt dtm msg part response).opened.count p
          = 1)
    ∧ ((c.upload_architectures tzOffset archs dtm msg response).opened
        = archs.map (fun pf => pf.2))
    ∧ ((c.upload_architectures tzOffset archs dtm msg response).request.files = archs)
    ∧ ((c.upload_architectures tzOffset archs dtm msg response).closed = []) := by
  refine ⟨rfl, rfl, rfl, ?_, rfl, ?_, rfl⟩
  · intro hnd p hp
    exact List.count_eq_one_of_mem hnd hp
  · simp [TeamscaleClient.upload_architectures]

/-- Witness for C7 at a concrete input: uploading the single coverage file
`cov.xml` opens it, attaches it under the field `report`, opens it exactly
once, and closes nothing. -/
theorem claim_C7_multipart_files_witness :
    (demoClient.upload_coverage_data 0 ["unit.xml"] "JACOCO" dt2021 "m" "P1" ok200).request.files
      = [("report", "unit.xml")]
    ∧ (demoClient.upload_coverage_data 0 ["unit.xml"] "JACOCO" dt2021 "m" "P1" ok200).opened.count
        "unit.xml" = 1
    ∧ (demoClient.upload_coverage_data 0 ["unit.xml"] "JACOCO" dt2021 "m" "P1" ok200).closed = [] := by
  have h := claim_C7_multipart_files demoClient 0 ["unit.xml"] "JACOCO" dt2021 "m" "P1" [] ok200
  exact ⟨h.2.1, h.2.2.2.1 (by simp) "unit.xml" (by simp), h.2.2.1⟩

/-- Helper: a monadic map over `Except` succeeds when every element
conversion succeeds. -/
theorem exists_mapM_ok {α β : Type} (f : α → Except PyError β) :
    ∀ xs : List α, (∀ x ∈ xs, ∃ b, f x = .ok b) → ∃ ys, xs.mapM f = .ok ys := by
  intro xs
  induction xs with
  | nil => exact fun _ => ⟨[], rfl⟩
  | cons x tl ih =>
    intro h
    obtain ⟨b, hb⟩ := h x (List.mem_cons_self x tl)
    obtain ⟨ys, hys⟩ := ih (fun y hy => h y (List.mem_cons_of_mem x hy))
    refine ⟨b :: ys, ?_⟩
    rw [List.mapM_cons, hb, hys]
    rfl

/-- C1 (counterexample): the legacy client's `put` on a non-200 response
raises a plain built-in `Exception` — not a `ServiceError` — so the
if-and-only-if between non-200 statuses and `ServiceError` fails there;
and `get_baselines` on a 200 response whose array element is the empty
object raises a `KeyError`, so a 200 status does not guarantee a return
without raising. -/
theorem claim_C1_counterexample :
    ((Legacy.TeamscaleClient.put ⟨"http://ts:8080", "user", "secret", "demo"⟩
        "http://ts:8080/x/" Json.null [] ⟨500, "boom", Json.null⟩).2
      = .error (.exception "ERROR: PUT http://ts:8080/x/: 500:boom"))
    ∧ raisesServiceError (Legacy.TeamscaleClient.put
        ⟨"http://ts:8080", "user", "secret", "demo"⟩
        "http://ts:8080/x/" Json.null [] ⟨500, "boom", Json.null⟩).2 = false
    ∧ (demoClient.get_baselines ⟨200, "body", .arr [.obj []]⟩).2
      = .error (.keyError "name") :=
  ⟨rfl, rfl, rfl⟩

/-- C1 (amended): for every façade method and every HTTP response, a
`ServiceError` is raised only on a non-200 status, and every non-200
status makes the call raise an error whose message carries the original
status code and body text — a `ServiceError` in every package-client
method, but a plain built-in `Exception` in the legacy client's `put`;
on a 200 status every method returns the response successfully, except
`get_baselines`, which returns successfully exactly when its body
deserializes (a malformed element raises a non-`ServiceError` key-lookup
error instead). -/
theorem claim_C1_status_discipline (c : TeamscaleClient) (lc : Legacy.TeamscaleClient)
    (url : String) (parameters : List (String × ParamValue)) (j d : Option Json)
    (lj : Json) (tzOffset : Int) (coverage_files : List String) (fmt : String)
    (dtm : Datetime) (msg part : String) (archs : List (String × String))
    (response : Response) :
    (errorMsgGET url response
        = "ERROR: GET " ++ url ++ ": " ++ toString response.status_code ++ ":" ++ response.text)
    ∧ (errorMsgPUT url response
        = "ERROR: PUT " ++ url ++ ": " ++ toString response.status_code ++ ":" ++ response.text)
    ∧ (Legacy.errorMsgPUT url response
        = "ERROR: PUT " ++ url ++ ": " ++ toString response.status_code ++ ":" ++ response.text)
    ∧ (response.status_code ≠ 200 →
        (c.get url parameters response).2 = .error (.serviceError (errorMsgGET url response))
        ∧ (c.put url j parameters d response).2
            = .error (.serviceError (errorMsgPUT url response))
        ∧ (c.upload_coverage_data tzOffset coverage_files fmt dtm msg part response).result
            = .error (.serviceError
                (errorMsgGET (c.get_project_service_url "external-report") response))
        ∧ (c.upload_architectures tzOffset archs dtm msg response).result
            = .error (.serviceError
                (errorMsgGET (c.get_project_service_url "architecture-upload") response))
        ∧ (c.get_baselines response).2
            = .error (.serviceError
                (errorMsgGET (c.get_project_service_url "baselines") response))
        ∧ (lc.put url lj parameters response).2
            = .error (.exception (Legacy.errorMsgPUT url response)))
    ∧ (response.status_code = 200 →
        (c.get url parameters response).2 = .ok response
        ∧ (c.put url j parameters d response).2 = .ok response
        ∧ (c.upload_coverage_data tzOffset coverage_files fmt dtm msg part response).result
            = .ok response
        ∧ (c.upload_architectures tzOffset archs dtm msg response).result = .ok response
        ∧ (lc.put url lj parameters response).2 = .ok response
        ∧ (∀ xs, response.body = .arr xs → (∀ x ∈ xs, ∃ b, baselineOfJson x = .ok b) →
            ∃ bs, (c.get_baselines response).2 = .ok bs)) := by
  refine ⟨?_, ?_, ?_, fun h => ⟨?_, ?_, ?_, ?_, ?_, ?_⟩, fun h => ⟨?_, ?_, ?_, ?_, ?_, ?_⟩⟩
  · simp [errorMsgGET, pyFormat, String.append_empty, String.append_assoc]
  · simp [errorMsgPUT, pyFormat, String.append_empty, String.append_assoc]
  · simp [Legacy.errorMsgPUT, pyFormat, String.append_empty, String.append_assoc]
  · simp [TeamscaleClient.get, h]
  · simp [TeamscaleClient.put, h]
  · simp [TeamscaleClient.upload_coverage_data, h]
  · simp [TeamscaleClient.upload_architectures, h]
  · simp [TeamscaleClient.get_baselines, h]
  · simp [Legacy.TeamscaleClient.put, h]
  · simp [TeamscaleClient.get, h]
  · simp [TeamscaleClient.put, h]
  · simp [TeamscaleClient.upload_coverage_data, h]
  · simp [TeamscaleClient.upload_architectures, h]
  · simp [Legacy.TeamscaleClient.put, h]
  · intro xs hbody hall
    obtain ⟨ys, hys⟩ := exists_mapM_ok baselineOfJson xs hall
    refine ⟨ys, ?_⟩
    simp [TeamscaleClient.get_baselines, h, hbody, Json.iterate]
    exact hys

/-- Witness for C1 at concrete inputs: a 500 response makes the package
client's `get` raise a `ServiceError` carrying the status code and body,
and a 200 response makes its `put` return the response. -/
theorem claim_C1_status_discipline_witness :
    (demoClient.get "http://ts:8080/x/" [] ⟨500, "boom", Json.null⟩).2
      = .error (.serviceError "ERROR: GET http://ts:8080/x/: 500:boom")
    ∧ (demoClient.put "http://ts:8080/x/" none [] none ok200).2 = .ok ok200 :=
  ⟨((claim_C1_status_discipline demoClient ⟨"u", "n", "p", "demo"⟩ "http://ts:8080/x/" []
      none none Json.null 0 [] "JACOCO" dt2021 "m" "P1" []
      ⟨500, "boom", Json.null⟩).2.2.2.1 (by decide)).1,
   ((claim_C1_status_discipline demoClient ⟨"u", "n", "p", "demo"⟩ "http://ts:8080/x/" []
      none none Json.null 0 [] "JACOCO" dt2021 "m" "P1" [] ok200).2.2.2.2 rfl).2.1⟩


/-- Helper: evaluation of the baseline element conversion on a JSON
object, by cases on the three key lookups (in the source's evaluation
order: name, then description, then timestamp). -/
theorem baselineOfJson_obj (fs : List (String × Json)) :
    baselineOfJson (.obj fs)
      = match fs.lookup "name" with
        | none => .error (.keyError "name")
        | some n =>
          match fs.lookup "description" with
          | none => .error (.keyError "description")
          | some d =>
            match fs.lookup "timestamp" with
            | none => .error (.keyError "timestamp")
            | some t => .ok ⟨n, d, t⟩ := by
  cases hn : fs.lookup "name" <;> cases hd : fs.lookup "description" <;>
    cases ht : fs.lookup "timestamp" <;>
      simp only [baselineOfJson, Json.getKey, hn, hd, ht] <;> rfl

/-- Helper: when the element conversion fails on a JSON object, the
raised error is a `KeyError` for one of the three baseline keys. -/
theorem baselineOfJson_obj_keyError (fs : List (String × Json)) (e : PyError)
    (h : baselineOfJson (.obj fs) = .error e) :
    ∃ k, e = .keyError k ∧ k ∈ (["name", "description", "timestamp"] : List String) := by
  rw [baselineOfJson_obj] at h
  cases hn : fs.lookup "name" <;> simp only [hn] at h
  · exact ⟨"name", by simpa using h.symm, by simp⟩
  cases hd : fs.lookup "description" <;> simp only [hd] at h
  · exact ⟨"description", by simpa using h.symm, by simp⟩
  cases ht : fs.lookup "timestamp" <;> simp only [ht] at h
  · exact ⟨"timestamp", by simpa using h.symm, by simp⟩
  · exact absurd h (by simp)

/-- Helper: a JSON object that lacks one of the three baseline keys makes
the element conversion fail. -/
theorem baselineOfJson_missing_error (x : Json) (hobj : x.isObj = true)
    (hmiss : missingBaselineKey x) : ∃ e, baselineOfJson x = .error e := by
  cases x <;> simp [Json.isObj] at hobj
  rename_i fs
  obtain ⟨k, hk, hget⟩ := hmiss
  have hnone : fs.lookup k = none := by
    cases hv : fs.lookup k <;> simp only [Json.getKey, hv] at hget
    · rfl
    · exact Except.noConfusion hget
  rw [baselineOfJson_obj]
  simp only [List.mem_cons, List.not_mem_nil, or_false] at hk
  rcases hk with rfl | rfl | rfl
  · simp only [hnone]
    exact ⟨.keyError "name", rfl⟩
  · cases hn : fs.lookup "name" <;> simp only [hn, hnone] <;> exact ⟨_, rfl⟩
  · cases hn : fs.lookup "name" <;> cases hd : fs.lookup "description" <;>
      simp only [hn, hd, hnone] <;> exact ⟨_, rfl⟩

/-- Helper: mapping the element conversion over a list of JSON objects in
which some element fails yields a raised `KeyError`. -/
theorem mapM_baselines_keyError :
    ∀ xs : List Json, (∀ x ∈ xs, x.isObj = true) →
      (∃ x ∈ xs, ∃ e, baselineOfJson x = .error e) →
      ∃ k, xs.mapM baselineOfJson = .error (.keyError k) := by
  intro xs
  induction xs with
  | nil =>
    intro _ hex
    rcases hex with ⟨x, hx, _⟩
    exact absurd hx (List.not_mem_nil x)
  | cons x tl ih =>
    intro hobj hex
    cases hfx : baselineOfJson x with
    | error e =>
      have hx : x.isObj = true := hobj x (List.mem_cons_self x tl)
      have hfs : ∃ fs, x = .obj fs := by
        cases x <;> simp [Json.isObj] at hx
        exact ⟨_, rfl⟩
      obtain ⟨fs, rfl⟩ := hfs
      obtain ⟨k, rfl, _⟩ := baselineOfJson_obj_keyError fs e hfx
      refine ⟨k, ?_⟩
      rw [List.mapM_cons, hfx]
      rfl
    | ok b =>
      have htl : ∃ y ∈ tl, ∃ e, baselineOfJson y = .error e := by
        rcases hex with ⟨y, hy, e, he⟩
        rcases List.mem_cons.mp hy with rfl | hy2
        · rw [hfx] at he; cases he
        · exact ⟨y, hy2, e, he⟩
      obtain ⟨k, hk⟩ := ih (fun y hy => hobj y (List.mem_cons_of_mem x hy)) htl
      refine ⟨k, ?_⟩
      rw [List.mapM_cons, hfx]
      simp only [hk]
      rfl

/-- C10: if `get_baselines` receives a 200 response whose JSON array of
objects contains an element missing one of the keys name, description or
timestamp, the call fails, but the failure is not a `ServiceError` — a
key-lookup error propagates instead; and elements' additional keys beyond
those three are ignored (an element holding the three keys deserializes
from exactly those three lookups, whatever else it contains). -/
theorem claim_C10_get_baselines_malformed (c : TeamscaleClient) (response : Response)
    (xs : List Json) (h200 : response.status_code = 200)
    (hbody : response.body = .arr xs) (hobj : ∀ x ∈ xs, x.isObj = true)
    (hmiss : ∃ x ∈ xs, missingBaselineKey x) :
    (∃ k, (c.get_baselines response).2 = .error (.keyError k))
    ∧ raisesServiceError (c.get_baselines response).2 = false
    ∧ (∀ fs n d t, fs.lookup "name" = some n → fs.lookup "description" = some d →
        fs.lookup "timestamp" = some t → baselineOfJson (.obj fs) = .ok ⟨n, d, t⟩) := by
  have hex : ∃ x ∈ xs, ∃ e, baselineOfJson x = .error e := by
    rcases hmiss with ⟨x, hx, hm⟩
    exact ⟨x, hx, baselineOfJson_missing_error x (hobj x hx) hm⟩
  obtain ⟨k, hk⟩ := mapM_baselines_keyError xs hobj hex
  have hres : (c.get_baselines response).2 = .error (.keyError k) := by
    simp [TeamscaleClient.get_baselines, h200, hbody, Json.iterate]
    exact hk
  refine ⟨⟨k, hres⟩, by rw [hres]; rfl, ?_⟩
  intro fs n d t hn hd ht
  simp only [baselineOfJson, Json.getKey, hn, hd, ht]
  rfl

/-- Witness for C10 at a concrete input: a 200 response whose body is the
one-object array `[{name: b1}]` (no description, no timestamp) makes
`get_baselines` fail with a key-lookup error, not a `ServiceError`. -/
theorem claim_C10_get_baselines_malformed_witness :
    (∃ k, (demoClient.get_baselines
        ⟨200, "body", .arr [.obj [("name", .str "b1")]]⟩).2 = .error (.keyError k))
    ∧ raisesServiceError (demoClient.get_baselines
        ⟨200, "body", .arr [.obj [("name", .str "b1")]]⟩).2 = false := by
  have h := claim_C10_get_baselines_malformed demoClient
    ⟨200, "body", .arr [.obj [("name", .str "b1")]]⟩ [.obj [("name", .str "b1")]]
    rfl rfl (by simp [Json.isObj])
    ⟨.obj [("name", .str "b1")], by simp, "description", by simp, rfl⟩
  exact ⟨h.1, h.2.1⟩

end TS
